import Mathlib

/-!
Verification of the YouTube MCP proxy (`src/mcpYoutube.py`).

The program exposes five tools (`search_videos`, `get_video_details`,
`get_channel_info`, `get_video_comments`, `get_trending_videos`); each builds a
query-parameter mapping, issues one HTTP GET with a 30-second timeout, and
either returns the parsed JSON body on success or an error envelope
`{"error": "HTTP error occurred: ..."}` when the HTTP library raises an
`httpx.HTTPError` (a transport failure during the GET, or the
`HTTPStatusError` raised by `raise_for_status()` on a non-2xx status).

The embedding makes the environment explicit: an `Upstream` value records how
the network behaved for the single GET a tool issues, and each tool is a pure
function from its Python arguments and the `Upstream` value to an
`Invocation` — the list of requests actually issued plus the call's outcome
(a returned Python value, or an exception escaping the function).

Modelling notes on the HTTP library, taken from its documented behaviour:
* `raise_for_status()` raises for every non-2xx status (2xx means
  `200 ≤ status < 300`) and is called before `response.json()`.
* `response.json()` parses the body; when the body is not valid JSON it
  raises a JSON-decoding error that is *not* an `httpx.HTTPError`, so the
  `except httpx.HTTPError` clause does not catch it and it escapes the tool.
  `Body.malformed` models such a body; `Body.json` a parseable one.
* the text of `str(e)` for a status error is produced by the library from the
  status and URL; its exact wording is irrelevant to every claim (the code
  under verification only prepends the fixed prefix `"HTTP error occurred: "`),
  so `statusErrorMessage` fixes one concrete rendering.
-/

/-- JSON values: the shape of parseable upstream response bodies and of the
Python values a tool returns. -/
inductive Json where
  | null
  | bool (b : Bool)
  | num (n : Int)
  | str (s : String)
  | arr (elems : List Json)
  | obj (fields : List (String × Json))

/-- A query-parameter value: the Python code puts strings and ints into the
`params` dict. -/
inductive PVal where
  | str (s : String)
  | int (n : Int)
deriving DecidableEq

/-- `YOUTUBE_API_BASE` constant from the source. -/
def YOUTUBE_API_BASE : String := "https://www.googleapis.com/youtube/v3"

/-- `USER_AGENT` constant from the source. -/
def USER_AGENT : String := "youtube-mcp/1.0"

/-- `YOUTUBE_API_KEY` constant from the source (a hard-coded placeholder). -/
def YOUTUBE_API_KEY : String := "Your-api-key"

/-- One outbound GET request as the source builds it: URL, query parameters
(in dict insertion order), headers, and the fixed timeout (`timeout=30.0`). -/
structure Request where
  url : String
  params : List (String × PVal)
  headers : List (String × String)
  timeoutSecs : Nat

/-- Read a query parameter of a request by name. -/
def Request.param (r : Request) (name : String) : Option PVal :=
  r.params.lookup name

/-- The body attached to an upstream HTTP response: either valid JSON,
or raw text `response.json()` cannot parse. -/
inductive Body where
  | json (j : Json)
  | malformed (raw : String)

/-- How the environment behaved for the one GET a tool issues:
either `client.get` itself raised a transport-level `httpx.HTTPError`
(timeout, DNS failure, connection error — `msg` is its `str(e)`),
or a response with some HTTP status and body came back. -/
inductive Upstream where
  | transportError (msg : String)
  | response (status : Nat) (body : Body)

/-- Outcome of a tool call: the Python value it returns, or an exception
that escapes it. -/
inductive Outcome where
  | returns (v : Json)
  | raises (exn : String)

/-- A whole tool invocation: the outbound requests it issued and its outcome. -/
structure Invocation where
  requests : List Request
  result : Outcome

/-- 2xx success statuses: `raise_for_status()` raises for every other status. -/
def is2xx (status : Nat) : Bool :=
  decide (200 ≤ status) && decide (status < 300)

/-- The error envelope `{"error": msg}` each tool returns from its
`except httpx.HTTPError` clause. -/
def errorEnvelope (msg : String) : Json :=
  Json.obj [("error", Json.str msg)]

/-- One concrete rendering of `str(e)` for the `HTTPStatusError` raised by
`raise_for_status()`; the library derives it from the status and URL. -/
def statusErrorMessage (status : Nat) (url : String) : String :=
  "status " ++ toString status ++ " for url " ++ url

/-- The shared tail of every tool: `response.raise_for_status()` then
`return response.json()`, wrapped in `try ... except httpx.HTTPError as e:
return {"error": f"HTTP error occurred: {str(e)}"}`. -/
def httpGetResult (url : String) (u : Upstream) : Outcome :=
  match u with
  | .transportError msg =>
      .returns (errorEnvelope ("HTTP error occurred: " ++ msg))
  | .response status body =>
      if is2xx status then
        match body with
        | .json j => .returns j
        | .malformed raw => .raises ("JSONDecodeError: " ++ raw)
      else
        .returns (errorEnvelope
          ("HTTP error occurred: " ++ statusErrorMessage status url))

/-- The upstream call failed in a way `except httpx.HTTPError` catches:
a transport error, or a response with a non-2xx status. -/
def Upstream.fails : Upstream → Bool
  | .transportError _ => true
  | .response status _ => !is2xx status

/-- The upstream outcome never pairs a 2xx status with an unparseable body
(i.e. `response.json()` is never reached on a malformed body). -/
def Upstream.jsonOnSuccess : Upstream → Bool
  | .response status (.malformed _) => !is2xx status
  | _ => true

/-- The request `search_videos` builds (source lines 36–48). -/
def search_videos_request (query : String) (max_results : Int)
    (order : String) : Request :=
  { url := YOUTUBE_API_BASE ++ "/search"
  , params :=
      [ ("part", PVal.str "snippet")
      , ("q", PVal.str query)
      , ("maxResults", PVal.int (min max_results 50))
      , ("order", PVal.str order)
      , ("type", PVal.str "video")
      , ("key", PVal.str YOUTUBE_API_KEY) ]
  , headers := [("User-Agent", USER_AGENT)]
  , timeoutSecs := 30 }

/-- `search_videos(query, max_results=10, order="relevance")`. -/
def search_videos (query : String) (max_results : Int) (order : String)
    (u : Upstream) : Invocation :=
  { requests := [search_videos_request query max_results order]
  , result := httpGetResult (search_videos_request query max_results order).url u }

/-- The request `get_video_details` builds (source lines 68–77). -/
def get_video_details_request (video_id : String) : Request :=
  { url := YOUTUBE_API_BASE ++ "/videos"
  , params :=
      [ ("part", PVal.str "snippet,contentDetails,statistics")
      , ("id", PVal.str video_id)
      , ("key", PVal.str YOUTUBE_API_KEY) ]
  , headers := [("User-Agent", USER_AGENT)]
  , timeoutSecs := 30 }

/-- `get_video_details(video_id)`. -/
def get_video_details (video_id : String) (u : Upstream) : Invocation :=
  { requests := [get_video_details_request video_id]
  , result := httpGetResult (get_video_details_request video_id).url u }

/-- The request `get_channel_info` builds (source lines 97–106). -/
def get_channel_info_request (channel_id : String) : Request :=
  { url := YOUTUBE_API_BASE ++ "/channels"
  , params :=
      [ ("part", PVal.str "snippet,statistics,contentDetails")
      , ("id", PVal.str channel_id)
      , ("key", PVal.str YOUTUBE_API_KEY) ]
  , headers := [("User-Agent", USER_AGENT)]
  , timeoutSecs := 30 }

/-- `get_channel_info(channel_id)`. -/
def get_channel_info (channel_id : String) (u : Upstream) : Invocation :=
  { requests := [get_channel_info_request channel_id]
  , result := httpGetResult (get_channel_info_request channel_id).url u }

/-- The request `get_video_comments` builds (source lines 132–143). -/
def get_video_comments_request (video_id : String) (max_results : Int)
    (order : String) : Request :=
  { url := YOUTUBE_API_BASE ++ "/commentThreads"
  , params :=
      [ ("part", PVal.str "snippet")
      , ("videoId", PVal.str video_id)
      , ("maxResults", PVal.int (min max_results 100))
      , ("order", PVal.str order)
      , ("key", PVal.str YOUTUBE_API_KEY) ]
  , headers := [("User-Agent", USER_AGENT)]
  , timeoutSecs := 30 }

/-- `get_video_comments(video_id, max_results=20, order="relevance")`. -/
def get_video_comments (video_id : String) (max_results : Int) (order : String)
    (u : Upstream) : Invocation :=
  { requests := [get_video_comments_request video_id max_results order]
  , result :=
      httpGetResult (get_video_comments_request video_id max_results order).url u }

/-- The request `get_trending_videos` builds (source lines 167–176):
the base `params` dict, then `if category_id: params["videoCategoryId"] =
category_id` — Python truthiness, so `None` and the empty string are both
skipped, and a non-empty string is appended after `"key"`. -/
def get_trending_videos_request (region_code : String)
    (category_id : Option String) (max_results : Int) : Request :=
  let base : List (String × PVal) :=
      [ ("part", PVal.str "snippet,contentDetails,statistics")
      , ("chart", PVal.str "mostPopular")
      , ("regionCode", PVal.str region_code)
      , ("maxResults", PVal.int (min max_results 50))
      , ("key", PVal.str YOUTUBE_API_KEY) ]
  { url := YOUTUBE_API_BASE ++ "/videos"
  , params :=
      match category_id with
      | some cid =>
          if cid = "" then base else base ++ [("videoCategoryId", PVal.str cid)]
      | none => base
  , headers := [("User-Agent", USER_AGENT)]
  , timeoutSecs := 30 }

/-- `get_trending_videos(region_code="US", category_id=None, max_results=10)`. -/
def get_trending_videos (region_code : String) (category_id : Option String)
    (max_results : Int) (u : Upstream) : Invocation :=
  { requests := [get_trending_videos_request region_code category_id max_results]
  , result :=
      httpGetResult
        (get_trending_videos_request region_code category_id max_results).url u }

/-! ### Helper lemmas -/

lemma lookup_maxResults_search (q : String) (mr : Int) (ord : String) :
    (search_videos_request q mr ord).param "maxResults"
      = some (PVal.int (min mr 50)) := by
  simp [search_videos_request, Request.param, List.lookup]

lemma lookup_maxResults_comments (vid : String) (mr : Int) (ord : String) :
    (get_video_comments_request vid mr ord).param "maxResults"
      = some (PVal.int (min mr 100)) := by
  simp [get_video_comments_request, Request.param, List.lookup]

lemma lookup_maxResults_trending (rc : String) (cid : Option String) (mr : Int) :
    (get_trending_videos_request rc cid mr).param "maxResults"
      = some (PVal.int (min mr 50)) := by
  rcases cid with _ | c
  · simp [get_trending_videos_request, Request.param, List.lookup]
  · by_cases hc : c = "" <;>
      simp [get_trending_videos_request, Request.param, List.lookup, hc]

lemma httpGetResult_of_fails (url : String) (u : Upstream)
    (h : u.fails = true) :
    ∃ m, httpGetResult url u
      = Outcome.returns (Json.obj [("error", Json.str m)]) := by
  rcases u with msg | ⟨status, body⟩
  · exact ⟨"HTTP error occurred: " ++ msg, rfl⟩
  · have hs : is2xx status = false := by
      simpa [Upstream.fails] using h
    exact ⟨"HTTP error occurred: " ++ statusErrorMessage status url,
      by simp [httpGetResult, hs, errorEnvelope]⟩

lemma httpGetResult_of_jsonOnSuccess (url : String) (u : Upstream)
    (h : u.jsonOnSuccess = true) :
    ∃ v, httpGetResult url u = Outcome.returns v := by
  rcases u with msg | ⟨status, body⟩
  · exact ⟨_, rfl⟩
  · by_cases hs : is2xx status = true
    · rcases body with j | raw
      · exact ⟨j, by simp [httpGetResult, hs]⟩
      · simp [Upstream.jsonOnSuccess, hs] at h
    · exact ⟨errorEnvelope
        ("HTTP error occurred: " ++ statusErrorMessage status url),
        by simp [httpGetResult, hs]⟩

/-! ### Claim theorems: request parameters -/

/-- C1: for every `max_results` above the documented cap (50 for
`search_videos` and `get_trending_videos`, 100 for `get_video_comments`)
the outgoing `maxResults` request parameter equals the cap, never the raw
input. -/
theorem c1_maxResults_capped_at_documented_cap
    (q vid rc ord ordC : String) (cid : Option String)
    (mrS mrC mrT : Int)
    (hS : 50 < mrS) (hC : 100 < mrC) (hT : 50 < mrT) :
    (search_videos_request q mrS ord).param "maxResults"
        = some (PVal.int 50) ∧
    (get_video_comments_request vid mrC ordC).param "maxResults"
        = some (PVal.int 100) ∧
    (get_trending_videos_request rc cid mrT).param "maxResults"
        = some (PVal.int 50) := by
  refine ⟨?_, ?_, ?_⟩
  · rw [lookup_maxResults_search, min_eq_right hS.le]
  · rw [lookup_maxResults_comments, min_eq_right hC.le]
  · rw [lookup_maxResults_trending, min_eq_right hT.le]

/-- C1 witness: in particular `search_videos` with `max_results = 200` sends
`maxResults = 50`, and likewise for the other two capped tools. -/
theorem c1_witness :
    (search_videos_request "cats" 200 "relevance").param "maxResults"
        = some (PVal.int 50) ∧
    (get_video_comments_request "dQw4w9WgXcQ" 200 "relevance").param "maxResults"
        = some (PVal.int 100) ∧
    (get_trending_videos_request "US" none 200).param "maxResults"
        = some (PVal.int 50) :=
  c1_maxResults_capped_at_documented_cap "cats" "dQw4w9WgXcQ" "US" "relevance"
    "relevance" none 200 200 200 (by decide) (by decide) (by decide)

/-- C9: for every `max_results` at or below the documented cap — including
zero and negatives — the outgoing `maxResults` parameter is the raw input
unchanged: `min(max_results, cap)` applies no lower bound. -/
theorem c9_maxResults_below_cap_passed_through
    (q vid rc ord ordC : String) (cid : Option String)
    (mrS mrC mrT : Int)
    (hS : mrS ≤ 50) (hC : mrC ≤ 100) (hT : mrT ≤ 50) :
    (search_videos_request q mrS ord).param "maxResults"
        = some (PVal.int mrS) ∧
    (get_video_comments_request vid mrC ordC).param "maxResults"
        = some (PVal.int mrC) ∧
    (get_trending_videos_request rc cid mrT).param "maxResults"
        = some (PVal.int mrT) := by
  refine ⟨?_, ?_, ?_⟩
  · rw [lookup_maxResults_search, min_eq_left hS]
  · rw [lookup_maxResults_comments, min_eq_left hC]
  · rw [lookup_maxResults_trending, min_eq_left hT]

/-- C9 witness: `max_results = 0` and negative values go out unchanged. -/
theorem c9_witness :
    (search_videos_request "cats" 0 "relevance").param "maxResults"
        = some (PVal.int 0) ∧
    (get_video_comments_request "dQw4w9WgXcQ" (-7) "time").param "maxResults"
        = some (PVal.int (-7)) ∧
    (get_trending_videos_request "US" none 1).param "maxResults"
        = some (PVal.int 1) :=
  c9_maxResults_below_cap_passed_through "cats" "dQw4w9WgXcQ" "US" "relevance"
    "time" none 0 (-7) 1 (by decide) (by decide) (by decide)

/-- C5 counterexample: the documented range of `search_videos.max_results`
is 1–50, so 0 is out of range and its nearest allowed bound is 1; the code
sends the raw 0, not the clamped 1 — out-of-range values are only clamped
from above, never to the lower bound. -/
theorem c5_counterexample_zero_not_clamped_to_one :
    (search_videos_request "cats" 0 "relevance").param "maxResults"
        = some (PVal.int 0) ∧
    (search_videos_request "cats" 0 "relevance").param "maxResults"
        ≠ some (PVal.int 1) := by
  refine ⟨by decide, by decide⟩

/-- C5 (amended): `max_results` is never rejected — the call's result does
not depend on it at all — and it is clamped from above to the cap, while
values at or below the cap (even below the documented lower bound of 1) are
sent unchanged. -/
theorem c5_maxResults_never_rejected_clamped_only_above
    (q vid rc ord ordC : String) (cid : Option String)
    (aS bS aC bC aT bT : Int)
    (haS : 50 < aS) (hbS : bS ≤ 50) (haC : 100 < aC) (hbC : bC ≤ 100)
    (haT : 50 < aT) (hbT : bT ≤ 50)
    (mr mr2 : Int) (u : Upstream) :
    ((search_videos_request q aS ord).param "maxResults"
          = some (PVal.int 50) ∧
      (search_videos_request q bS ord).param "maxResults"
          = some (PVal.int bS)) ∧
    ((get_video_comments_request vid aC ordC).param "maxResults"
          = some (PVal.int 100) ∧
      (get_video_comments_request vid bC ordC).param "maxResults"
          = some (PVal.int bC)) ∧
    ((get_trending_videos_request rc cid aT).param "maxResults"
          = some (PVal.int 50) ∧
      (get_trending_videos_request rc cid bT).param "maxResults"
          = some (PVal.int bT)) ∧
    (search_videos q mr ord u).result = (search_videos q mr2 ord u).result ∧
    (get_video_comments vid mr ordC u).result
        = (get_video_comments vid mr2 ordC u).result ∧
    (get_trending_videos rc cid mr u).result
        = (get_trending_videos rc cid mr2 u).result := by
  refine ⟨⟨?_, ?_⟩, ⟨?_, ?_⟩, ⟨?_, ?_⟩, rfl, rfl, rfl⟩
  · rw [lookup_maxResults_search, min_eq_right haS.le]
  · rw [lookup_maxResults_search, min_eq_left hbS]
  · rw [lookup_maxResults_comments, min_eq_right haC.le]
  · rw [lookup_maxResults_comments, min_eq_left hbC]
  · rw [lookup_maxResults_trending, min_eq_right haT.le]
  · rw [lookup_maxResults_trending, min_eq_left hbT]

/-- C5 witness: the amended behaviour at concrete inputs (200 clamps to the
cap, 0 and −3 pass through, the result ignores `max_results`). -/
theorem c5_witness :
    ((search_videos_request "cats" 200 "relevance").param "maxResults"
          = some (PVal.int 50) ∧
      (search_videos_request "cats" 0 "relevance").param "maxResults"
          = some (PVal.int 0)) ∧
    ((get_video_comments_request "dQw4w9WgXcQ" 500 "time").param "maxResults"
          = some (PVal.int 100) ∧
      (get_video_comments_request "dQw4w9WgXcQ" (-3) "time").param "maxResults"
          = some (PVal.int (-3))) ∧
    ((get_trending_videos_request "US" (some "10") 51).param "maxResults"
          = some (PVal.int 50) ∧
      (get_trending_videos_request "US" (some "10") 50).param "maxResults"
          = some (PVal.int 50)) ∧
    (search_videos "cats" 0 "relevance"
        (Upstream.transportError "timeout")).result
      = (search_videos "cats" 9999 "relevance"
          (Upstream.transportError "timeout")).result ∧
    (get_video_comments "dQw4w9WgXcQ" 0 "time"
        (Upstream.transportError "timeout")).result
      = (get_video_comments "dQw4w9WgXcQ" 9999 "time"
          (Upstream.transportError "timeout")).result ∧
    (get_trending_videos "US" (some "10") 0
        (Upstream.transportError "timeout")).result
      = (get_trending_videos "US" (some "10") 9999
          (Upstream.transportError "timeout")).result :=
  c5_maxResults_never_rejected_clamped_only_above "cats" "dQw4w9WgXcQ" "US"
    "relevance" "time" (some "10") 200 0 500 (-3) 51 50
    (by decide) (by decide) (by decide) (by decide) (by decide) (by decide)
    0 9999 (Upstream.transportError "timeout")

/-- C6 counterexample: `category_id` supplied as the empty string — the claim
says `videoCategoryId` is included whenever `category_id` is supplied, but the
outgoing request omits it, because the code tests Python truthiness
(`if category_id:`), not presence. -/
theorem c6_counterexample_empty_string_supplied_but_omitted :
    (get_trending_videos_request "US" (some "") 10).param "videoCategoryId"
      = none := by
  decide

/-- C6 (amended): `videoCategoryId` is omitted when `category_id` is not
supplied, included whenever a non-empty `category_id` is supplied, and also
omitted when the supplied value is the empty string. -/
theorem c6_categoryId_included_iff_truthy
    (rc : String) (mr : Int) (cid : String) (h : cid ≠ "") :
    (get_trending_videos_request rc none mr).param "videoCategoryId" = none ∧
    (get_trending_videos_request rc (some cid) mr).param "videoCategoryId"
        = some (PVal.str cid) ∧
    (get_trending_videos_request rc (some "") mr).param "videoCategoryId"
        = none := by
  refine ⟨?_, ?_, ?_⟩ <;>
    simp [get_trending_videos_request, Request.param, List.lookup, h]

/-- C6 witness: concrete category id "10" is included; absent and empty are
omitted. -/
theorem c6_witness :
    (get_trending_videos_request "US" none 10).param "videoCategoryId"
        = none ∧
    (get_trending_videos_request "US" (some "10") 10).param "videoCategoryId"
        = some (PVal.str "10") ∧
    (get_trending_videos_request "US" (some "") 10).param "videoCategoryId"
        = none :=
  c6_categoryId_included_iff_truthy "US" 10 "10" (by decide)

/-- C10: supplying the empty string as `category_id` yields exactly the same
invocation (same outgoing request, same result) as not supplying it at all:
the inclusion test is truthiness, not presence. -/
theorem c10_empty_categoryId_same_as_absent
    (rc : String) (mr : Int) (u : Upstream) :
    get_trending_videos rc (some "") mr u = get_trending_videos rc none mr u :=
  rfl

/-! ### Claim theorems: outcomes -/

/-- C2: for every one of the five tools, when the upstream call fails with a
transport error or a non-2xx status, the tool returns an object whose only
top-level key is "error", mapped to a string. -/
theorem c2_failure_yields_error_envelope
    (q vid ch cvid rc ord ordC : String) (cid : Option String)
    (mrS mrC mrT : Int) (u : Upstream) (h : u.fails = true) :
    (∃ m, (search_videos q mrS ord u).result
        = Outcome.returns (Json.obj [("error", Json.str m)])) ∧
    (∃ m, (get_video_details vid u).result
        = Outcome.returns (Json.obj [("error", Json.str m)])) ∧
    (∃ m, (get_channel_info ch u).result
        = Outcome.returns (Json.obj [("error", Json.str m)])) ∧
    (∃ m, (get_video_comments cvid mrC ordC u).result
        = Outcome.returns (Json.obj [("error", Json.str m)])) ∧
    (∃ m, (get_trending_videos rc cid mrT u).result
        = Outcome.returns (Json.obj [("error", Json.str m)])) :=
  ⟨httpGetResult_of_fails _ u h, httpGetResult_of_fails _ u h,
   httpGetResult_of_fails _ u h, httpGetResult_of_fails _ u h,
   httpGetResult_of_fails _ u h⟩

/-- C2 witness: a concrete transport failure gives the single-key error
object in all five tools. -/
theorem c2_witness :
    (∃ m, (search_videos "cats" 10 "relevance"
          (Upstream.transportError "timed out")).result
        = Outcome.returns (Json.obj [("error", Json.str m)])) ∧
    (∃ m, (get_video_details "dQw4w9WgXcQ"
          (Upstream.transportError "timed out")).result
        = Outcome.returns (Json.obj [("error", Json.str m)])) ∧
    (∃ m, (get_channel_info "UC123"
          (Upstream.transportError "timed out")).result
        = Outcome.returns (Json.obj [("error", Json.str m)])) ∧
    (∃ m, (get_video_comments "dQw4w9WgXcQ" 20 "time"
          (Upstream.transportError "timed out")).result
        = Outcome.returns (Json.obj [("error", Json.str m)])) ∧
    (∃ m, (get_trending_videos "US" none 10
          (Upstream.transportError "timed out")).result
        = Outcome.returns (Json.obj [("error", Json.str m)])) :=
  c2_failure_yields_error_envelope "cats" "dQw4w9WgXcQ" "UC123" "dQw4w9WgXcQ"
    "US" "relevance" "time" none 10 20 10
    (Upstream.transportError "timed out") (by decide)

/-- C3: for every one of the five tools, a 2xx response with a parseable JSON
body is returned to the caller exactly as parsed — pass-through identity. -/
theorem c3_success_passthrough
    (q vid ch cvid rc ord ordC : String) (cid : Option String)
    (mrS mrC mrT : Int) (status : Nat) (j : Json)
    (h2 : is2xx status = true) :
    (search_videos q mrS ord (Upstream.response status (Body.json j))).result
        = Outcome.returns j ∧
    (get_video_details vid (Upstream.response status (Body.json j))).result
        = Outcome.returns j ∧
    (get_channel_info ch (Upstream.response status (Body.json j))).result
        = Outcome.returns j ∧
    (get_video_comments cvid mrC ordC
          (Upstream.response status (Body.json j))).result
        = Outcome.returns j ∧
    (get_trending_videos rc cid mrT
          (Upstream.response status (Body.json j))).result
        = Outcome.returns j := by
  have hb : ∀ url, httpGetResult url (Upstream.response status (Body.json j))
      = Outcome.returns j := fun url => by simp [httpGetResult, h2]
  exact ⟨hb _, hb _, hb _, hb _, hb _⟩

/-- C3 witness: a concrete 200 response body comes back unmodified from all
five tools. -/
theorem c3_witness :
    (search_videos "cats" 10 "relevance" (Upstream.response 200
        (Body.json (Json.obj [("kind", Json.str "youtube#searchListResponse")])))).result
      = Outcome.returns
          (Json.obj [("kind", Json.str "youtube#searchListResponse")]) ∧
    (get_video_details "dQw4w9WgXcQ" (Upstream.response 200
        (Body.json (Json.obj [("kind", Json.str "youtube#searchListResponse")])))).result
      = Outcome.returns
          (Json.obj [("kind", Json.str "youtube#searchListResponse")]) ∧
    (get_channel_info "UC123" (Upstream.response 200
        (Body.json (Json.obj [("kind", Json.str "youtube#searchListResponse")])))).result
      = Outcome.returns
          (Json.obj [("kind", Json.str "youtube#searchListResponse")]) ∧
    (get_video_comments "dQw4w9WgXcQ" 20 "time" (Upstream.response 200
        (Body.json (Json.obj [("kind", Json.str "youtube#searchListResponse")])))).result
      = Outcome.returns
          (Json.obj [("kind", Json.str "youtube#searchListResponse")]) ∧
    (get_trending_videos "US" none 10 (Upstream.response 200
        (Body.json (Json.obj [("kind", Json.str "youtube#searchListResponse")])))).result
      = Outcome.returns
          (Json.obj [("kind", Json.str "youtube#searchListResponse")]) :=
  c3_success_passthrough "cats" "dQw4w9WgXcQ" "UC123" "dQw4w9WgXcQ" "US"
    "relevance" "time" none 10 20 10 200
    (Json.obj [("kind", Json.str "youtube#searchListResponse")]) (by decide)

/-- C4 counterexample: a 2xx response whose body is not valid JSON makes
`response.json()` raise a JSON-decoding error, which is not an
`httpx.HTTPError`, so the `except` clause does not catch it and the call
raises instead of returning a dictionary — the claim's "any 2xx response
body" is too strong. -/
theorem c4_counterexample_malformed_2xx_raises :
    (search_videos "cats" 10 "relevance"
        (Upstream.response 200 (Body.malformed "<html>"))).result
      = Outcome.raises "JSONDecodeError: <html>" :=
  rfl

/-- C4 (amended): for every upstream outcome whose 2xx responses carry
parseable JSON (transport errors and non-2xx responses unrestricted), every
one of the five tools returns a value — the parsed body or the error
envelope — and no exception escapes; a 2xx response with an unparseable body
instead raises an uncaught JSON-decoding error. -/
theorem c4_returns_whenever_success_body_parses
    (q vid ch cvid rc ord ordC : String) (cid : Option String)
    (mrS mrC mrT : Int) (u : Upstream) (h : u.jsonOnSuccess = true) :
    (∃ v, (search_videos q mrS ord u).result = Outcome.returns v) ∧
    (∃ v, (get_video_details vid u).result = Outcome.returns v) ∧
    (∃ v, (get_channel_info ch u).result = Outcome.returns v) ∧
    (∃ v, (get_video_comments cvid mrC ordC u).result = Outcome.returns v) ∧
    (∃ v, (get_trending_videos rc cid mrT u).result = Outcome.returns v) :=
  ⟨httpGetResult_of_jsonOnSuccess _ u h, httpGetResult_of_jsonOnSuccess _ u h,
   httpGetResult_of_jsonOnSuccess _ u h, httpGetResult_of_jsonOnSuccess _ u h,
   httpGetResult_of_jsonOnSuccess _ u h⟩

/-- C4 witness: a 500 response with an unparseable body still yields a
returned value in all five tools (raise_for_status fires before json
parsing). -/
theorem c4_witness :
    (∃ v, (search_videos "cats" 10 "relevance"
          (Upstream.response 500 (Body.malformed "oops"))).result
        = Outcome.returns v) ∧
    (∃ v, (get_video_details "dQw4w9WgXcQ"
          (Upstream.response 500 (Body.malformed "oops"))).result
        = Outcome.returns v) ∧
    (∃ v, (get_channel_info "UC123"
          (Upstream.response 500 (Body.malformed "oops"))).result
        = Outcome.returns v) ∧
    (∃ v, (get_video_comments "dQw4w9WgXcQ" 20 "time"
          (Upstream.response 500 (Body.malformed "oops"))).result
        = Outcome.returns v) ∧
    (∃ v, (get_trending_videos "US" none 10
          (Upstream.response 500 (Body.malformed "oops"))).result
        = Outcome.returns v) :=
  c4_returns_whenever_success_body_parses "cats" "dQw4w9WgXcQ" "UC123"
    "dQw4w9WgXcQ" "US" "relevance" "time" none 10 20 10
    (Upstream.response 500 (Body.malformed "oops")) (by decide)

/-- C7: for every one of the five tools, an HTTP error status (any non-2xx,
e.g. 403) yields an error envelope whose "error" string begins with
"HTTP error occurred: ". -/
theorem c7_error_message_has_http_error_prefix
    (q vid ch cvid rc ord ordC : String) (cid : Option String)
    (mrS mrC mrT : Int) (status : Nat) (body : Body)
    (h : is2xx status = false) :
    (∃ rest, (search_videos q mrS ord (Upstream.response status body)).result
        = Outcome.returns (Json.obj
            [("error", Json.str ("HTTP error occurred: " ++ rest))])) ∧
    (∃ rest, (get_video_details vid (Upstream.response status body)).result
        = Outcome.returns (Json.obj
            [("error", Json.str ("HTTP error occurred: " ++ rest))])) ∧
    (∃ rest, (get_channel_info ch (Upstream.response status body)).result
        = Outcome.returns (Json.obj
            [("error", Json.str ("HTTP error occurred: " ++ rest))])) ∧
    (∃ rest, (get_video_comments cvid mrC ordC
          (Upstream.response status body)).result
        = Outcome.returns (Json.obj
            [("error", Json.str ("HTTP error occurred: " ++ rest))])) ∧
    (∃ rest, (get_trending_videos rc cid mrT
          (Upstream.response status body)).result
        = Outcome.returns (Json.obj
            [("error", Json.str ("HTTP error occurred: " ++ rest))])) := by
  have hb : ∀ url, ∃ rest, httpGetResult url (Upstream.response status body)
      = Outcome.returns (Json.obj
          [("error", Json.str ("HTTP error occurred: " ++ rest))]) :=
    fun url => ⟨statusErrorMessage status url,
      by simp [httpGetResult, h, errorEnvelope]⟩
  exact ⟨hb _, hb _, hb _, hb _, hb _⟩

/-- C7 witness: upstream 403 gives the prefixed message in all five tools. -/
theorem c7_witness :
    (∃ rest, (search_videos "cats" 10 "relevance"
          (Upstream.response 403 (Body.json Json.null))).result
        = Outcome.returns (Json.obj
            [("error", Json.str ("HTTP error occurred: " ++ rest))])) ∧
    (∃ rest, (get_video_details "dQw4w9WgXcQ"
          (Upstream.response 403 (Body.json Json.null))).result
        = Outcome.returns (Json.obj
            [("error", Json.str ("HTTP error occurred: " ++ rest))])) ∧
    (∃ rest, (get_channel_info "UC123"
          (Upstream.response 403 (Body.json Json.null))).result
        = Outcome.returns (Json.obj
            [("error", Json.str ("HTTP error occurred: " ++ rest))])) ∧
    (∃ rest, (get_video_comments "dQw4w9WgXcQ" 20 "time"
          (Upstream.response 403 (Body.json Json.null))).result
        = Outcome.returns (Json.obj
            [("error", Json.str ("HTTP error occurred: " ++ rest))])) ∧
    (∃ rest, (get_trending_videos "US" none 10
          (Upstream.response 403 (Body.json Json.null))).result
        = Outcome.returns (Json.obj
            [("error", Json.str ("HTTP error occurred: " ++ rest))])) :=
  c7_error_message_has_http_error_prefix "cats" "dQw4w9WgXcQ" "UC123"
    "dQw4w9WgXcQ" "US" "relevance" "time" none 10 20 10 403
    (Body.json Json.null) (by decide)

/-- C8: every invocation of any tool issues exactly one outbound GET — hence
at most one, with no retry and no second request — and when that single
request fails the tool immediately returns the error envelope. -/
theorem c8_single_request_no_retry
    (q vid ch cvid rc ord ordC : String) (cid : Option String)
    (mrS mrC mrT : Int) (u uf : Upstream) (h : uf.fails = true) :
    (search_videos q mrS ord u).requests.length = 1 ∧
    (get_video_details vid u).requests.length = 1 ∧
    (get_channel_info ch u).requests.length = 1 ∧
    (get_video_comments cvid mrC ordC u).requests.length = 1 ∧
    (get_trending_videos rc cid mrT u).requests.length = 1 ∧
    (∃ m, (search_videos q mrS ord uf).result
        = Outcome.returns (errorEnvelope m)) ∧
    (∃ m, (get_video_details vid uf).result
        = Outcome.returns (errorEnvelope m)) ∧
    (∃ m, (get_channel_info ch uf).result
        = Outcome.returns (errorEnvelope m)) ∧
    (∃ m, (get_video_comments cvid mrC ordC uf).result
        = Outcome.returns (errorEnvelope m)) ∧
    (∃ m, (get_trending_videos rc cid mrT uf).result
        = Outcome.returns (errorEnvelope m)) :=
  ⟨rfl, rfl, rfl, rfl, rfl,
   httpGetResult_of_fails _ uf h, httpGetResult_of_fails _ uf h,
   httpGetResult_of_fails _ uf h, httpGetResult_of_fails _ uf h,
   httpGetResult_of_fails _ uf h⟩

/-- C8 witness: at concrete inputs — one success outcome, one failing
outcome — every tool issued exactly one request and the failing call
returned the envelope. -/
theorem c8_witness :
    (search_videos "cats" 10 "relevance"
        (Upstream.response 200 (Body.json Json.null))).requests.length = 1 ∧
    (get_video_details "dQw4w9WgXcQ"
        (Upstream.response 200 (Body.json Json.null))).requests.length = 1 ∧
    (get_channel_info "UC123"
        (Upstream.response 200 (Body.json Json.null))).requests.length = 1 ∧
    (get_video_comments "dQw4w9WgXcQ" 20 "time"
        (Upstream.response 200 (Body.json Json.null))).requests.length = 1 ∧
    (get_trending_videos "US" none 10
        (Upstream.response 200 (Body.json Json.null))).requests.length = 1 ∧
    (∃ m, (search_videos "cats" 10 "relevance"
          (Upstream.transportError "connection reset")).result
        = Outcome.returns (errorEnvelope m)) ∧
    (∃ m, (get_video_details "dQw4w9WgXcQ"
          (Upstream.transportError "connection reset")).result
        = Outcome.returns (errorEnvelope m)) ∧
    (∃ m, (get_channel_info "UC123"
          (Upstream.transportError "connection reset")).result
        = Outcome.returns (errorEnvelope m)) ∧
    (∃ m, (get_video_comments "dQw4w9WgXcQ" 20 "time"
          (Upstream.transportError "connection reset")).result
        = Outcome.returns (errorEnvelope m)) ∧
    (∃ m, (get_trending_videos "US" none 10
          (Upstream.transportError "connection reset")).result
        = Outcome.returns (errorEnvelope m)) :=
  c8_single_request_no_retry "cats" "dQw4w9WgXcQ" "UC123" "dQw4w9WgXcQ" "US"
    "relevance" "time" none 10 20 10
    (Upstream.response 200 (Body.json Json.null))
    (Upstream.transportError "connection reset") (by decide)
